import Mathlib

/-!
Shallow embedding of the browser connection/session manager of
`src/core/browser.py` (webscraper-cli).

Modelling conventions:
* Playwright / OS handles (Browser, BrowserContext, Page, Popen) are `Nat`
  identifiers allocated from a counter in the world state.
* The outside world (TCP probes, CDP attach outcomes, Chrome executable
  discovery, free-port allocation, process liveness) is an `Env` of oracles;
  retry loops index their oracle by attempt number.
* The port file `~/.webscraper-browser-port` is `Option (Option Nat)`:
  `none` = file absent, `some none` = present but unparsable by `int(...)`,
  `some (some p)` = present and parses to port `p`.
* Python exceptions become an `Except` result paired with the world at the
  moment the exception escapes (Python mutations before the raise persist).
* `self.connections` (a Python dict) is an association list with first-match
  lookup and overwrite-in-place insertion, matching dict semantics.
-/

namespace WebscraperBrowser

/-- Source: `BrowserMode = Literal['fresh', 'cdp', 'profile', 'persistent']`
(browser.py line 12). -/
inductive BrowserMode where
  | fresh
  | cdp
  | profile
  | persistent
deriving DecidableEq, Repr

/-- Source: `class BrowserConnection` (browser.py lines 55-72): the five data fields
plus the optional backing process.  Handles are `Nat` identifiers. -/
structure BrowserConnection where
  browser : Option Nat
  context : Nat
  page : Nat
  mode : BrowserMode
  session_id : String
  process : Option Nat
deriving DecidableEq, Repr

/-- The observable effect of `BrowserConnection.close` (browser.py lines
74-82): persistent mode does nothing, profile mode closes the context,
otherwise the browser handle is closed when present. -/
inductive CloseEffect where
  | noEffect
  | closedContext (h : Nat)
  | closedBrowser (h : Nat)
deriving DecidableEq, Repr

/-- Source: `BrowserConnection.close` (browser.py lines 74-82). -/
def BrowserConnection.closeEffect (c : BrowserConnection) : CloseEffect :=
  match c.mode with
  | .persistent => .noEffect
  | .profile => .closedContext c.context
  | _ =>
    match c.browser with
    | some b => .closedBrowser b
    | none => .noEffect

/-- Mutable state touched by `BrowserManager` plus the port file and ghost
counters for handle/pid allocation and launch counting. -/
structure World where
  /-- content of `BROWSER_PORT_FILE` (see module conventions). -/
  portFile : Option (Option Nat)
  /-- Source: `self.connections : Dict[str, BrowserConnection]` as an assoc list. -/
  connections : List (String × BrowserConnection)
  /-- whether `self._playwright` has been started. -/
  playwrightStarted : Bool
  /-- Source: `self._persistent_process` as a pid. -/
  persistentProcess : Option Nat
  /-- Source: `self._persistent_port`. -/
  persistentPort : Option Nat
  /-- allocator for pids of processes we spawn. -/
  nextPid : Nat
  /-- allocator for Playwright-object handles. -/
  nextHandle : Nat
  /-- ghost: pids spawned via `subprocess.Popen` (line 169), in order. -/
  launchedPids : List Nat
  /-- ghost: number of Playwright-level browser launches
  (`browser_type.launch`, `launch_persistent_context`). -/
  pwLaunches : Nat
  /-- ghost: close effects performed so far (teardown calls). -/
  closedLog : List CloseEffect
deriving DecidableEq, Repr

/-- Oracles for everything outside the process. -/
structure Env where
  /-- Source: `get_chrome_path()` result (lines 27-52). -/
  chromePath : Option String
  /-- Source: `find_free_port()` result (lines 18-24). -/
  freePort : Nat
  /-- short-timeout TCP `connect_ex(('localhost', port)) == 0`
  (lines 107-110): does something accept on this port right now. -/
  verifyConnect : Nat → Bool
  /-- TCP probe during the readiness wait loop (lines 177-186),
  indexed by attempt number then port. -/
  waitProbe : Nat → Nat → Bool
  /-- Source: `connect_over_cdp` outcome in the persistent-mode retry loop
  (lines 215-223), indexed by attempt number. -/
  attachOk : Nat → Bool
  /-- Source: `connect_over_cdp(cdp_endpoint)` outcome in cdp mode (line 232). -/
  cdpDirectOk : Bool
  /-- Source: `self._persistent_process.poll() is None` (line 129): pid alive. -/
  procAlive : Nat → Bool
  /-- Source: `browser.contexts[0]` when the attached browser already has a
  context (lines 225-226 / 233-234), as a handle. -/
  remoteContext : Option Nat
  /-- Source: `context.pages[0]` when a reused (non-fresh) context already has a
  page (lines 275-276), as a handle. -/
  ctxPage : Option Nat
  /-- Playwright launch outcome for fresh / profile modes
  (lines 245-247, 271). -/
  pwLaunchOk : Bool

/-- Python dict lookup `self.connections.get(k)`. -/
def dictGet (k : String) : List (String × BrowserConnection) → Option BrowserConnection
  | [] => none
  | (k', v) :: rest => if k' = k then some v else dictGet k rest

/-- Python dict assignment `self.connections[k] = v`: overwrite in place,
else append. -/
def dictSet (k : String) (v : BrowserConnection) :
    List (String × BrowserConnection) → List (String × BrowserConnection)
  | [] => [(k, v)]
  | (k', v') :: rest =>
    if k' = k then (k, v) :: rest else (k', v') :: dictSet k v rest

/-- Python `del self.connections[k]`. -/
def dictRemove (k : String) :
    List (String × BrowserConnection) → List (String × BrowserConnection)
  | [] => []
  | (k', v') :: rest =>
    if k' = k then rest else (k', v') :: dictRemove k rest

/-- Allocate a fresh Playwright-object handle. -/
def allocH (w : World) : Nat × World :=
  (w.nextHandle, { w with nextHandle := w.nextHandle + 1 })

/-- Error taxonomy: each constructor is one `raise` site of browser.py. -/
inductive BrowserError where
  /-- Source: `RuntimeError('Chrome not found. ...')` (line 135). -/
  | chromeNotFound
  /-- Source: `RuntimeError(f'Could not connect to browser at {cdp_url}: ...')`
  (line 223) and a failing direct `connect_over_cdp` (line 232). -/
  | attachFailed
  /-- Source: `ValueError('CDP endpoint is required for CDP mode')` (line 231). -/
  | cdpEndpointRequired
  /-- Source: `ValueError('User data directory is required for profile mode')`
  (line 238). -/
  | userDataDirRequired
  /-- a failing Playwright launch call (lines 245, 271). -/
  | launchFailed
deriving DecidableEq, Repr

/-- Source: `BrowserManager._check_existing_browser` (browser.py lines 100-119):
read the port file, re-verify by a real TCP connect, delete the file on any
failure (absence, parse error, refused/timed-out connect) and return `none`;
return the port with the file kept only when the connect succeeds. -/
def check_existing_browser (env : Env) (w : World) : Option Nat × World :=
  match w.portFile with
  | none => (none, w)
  | some none =>
    -- `int(f.read().strip())` raised; `except Exception: pass`, then the
    -- stale file is removed (lines 112-118).
    (none, { w with portFile := none })
  | some (some port) =>
    if env.verifyConnect port then (some port, w)
    else (none, { w with portFile := none })

/-- The readiness poll of `_launch_persistent_browser` (browser.py lines
177-187): up to `fuel` sleep-then-probe attempts, breaking on the first
success.  Returns (did a probe succeed, total probes made), with `made`
counting probes already performed. -/
def waitReady (probe : Nat → Bool) : Nat → Nat → Bool × Nat
  | 0, made => (false, made)
  | fuel + 1, made =>
    if probe made then (true, made + 1) else waitReady probe fuel (made + 1)

/-- The tail of `_launch_persistent_browser` once no existing browser was
found (browser.py lines 133-188): locate Chrome, pick a free port, write the
port file (lines 165-166), spawn the detached process (lines 169-174), then
run the bounded readiness poll whose outcome the code discards. -/
def launchNewDetached (env : Env) (w : World) : Except BrowserError Nat × World :=
  match env.chromePath with
  | none => (.error .chromeNotFound, w)
  | some _ =>
    let port := env.freePort
    -- the file is written BEFORE the process is spawned (lines 165-169)
    let w := { w with portFile := some (some port) }
    let pid := w.nextPid
    let w := { w with
      nextPid := pid + 1
      launchedPids := w.launchedPids ++ [pid]
      persistentProcess := some pid
      persistentPort := some port }
    let _ready := waitReady (fun i => env.waitProbe i port) 20 0
    (.ok port, w)

/-- Source: `BrowserManager._launch_persistent_browser` (browser.py lines 121-188).
The `headless` flag only adds `--headless=new` to the child's argv and is
otherwise unobservable here. -/
def launch_persistent_browser (env : Env) (_headless : Bool) (w : World) :
    Except BrowserError Nat × World :=
  match check_existing_browser env w with
  | (some p, w) => (.ok p, { w with persistentPort := some p })
  | (none, w) =>
    match w.persistentProcess with
    | some pid =>
      if env.procAlive pid then
        -- browser already running in this session (lines 129-131);
        -- Python returns whatever `self._persistent_port` holds.
        (.ok (w.persistentPort.getD 0), w)
      else launchNewDetached env w
    | none => launchNewDetached env w

/-- The `connect_over_cdp` retry loop of persistent mode (browser.py lines
215-223): up to `fuel` attempts; `some i` = attempt `i` succeeded, `none` =
all attempts failed and the final exception escapes as a `RuntimeError`. -/
def attachTry (ok : Nat → Bool) : Nat → Nat → Option Nat
  | 0, _ => none
  | fuel + 1, attempt =>
    if ok attempt then some attempt else attachTry ok fuel (attempt + 1)

/-- Arguments of `BrowserManager.connect` (browser.py lines 190-199).
`channel` and `executable_path` only shape the launch options handed to
Playwright and are unobservable in this embedding. -/
structure ConnectArgs where
  mode : BrowserMode := .fresh
  headless : Bool := false
  cdp_endpoint : Option String := none
  user_data_dir : Option String := none
  session_id : Option String := none

/-- Intermediate result of one backend branch of `connect`:
(browser handle, context handle, was the context created fresh by
`new_context`/`new_page` semantics, backing process). -/
structure BranchOut where
  browser : Option Nat
  context : Nat
  ctxFresh : Bool
  process : Option Nat
deriving DecidableEq, Repr

/-- Persistent branch of `connect` (browser.py lines 208-227): launch or
reuse the detached browser, retry CDP attach up to 20 times (raising on
exhaustion — note: WITHOUT clearing the port file), reuse the first remote
context if present. -/
def connectPersistent (env : Env) (headless : Bool) (w : World) :
    Except BrowserError BranchOut × World :=
  match launch_persistent_browser env headless w with
  | (.error e, w) => (.error e, w)
  | (.ok _port, w) =>
    match attachTry env.attachOk 20 0 with
    | none => (.error .attachFailed, w)
    | some _ =>
      let (b, w) := allocH w
      match env.remoteContext with
      | some c => (.ok ⟨some b, c, false, w.persistentProcess⟩, w)
      | none =>
        let (c, w) := allocH w
        (.ok ⟨some b, c, true, w.persistentProcess⟩, w)

/-- CDP branch of `connect` (browser.py lines 229-234). -/
def connectCdp (env : Env) (endpoint : Option String) (w : World) :
    Except BrowserError BranchOut × World :=
  match endpoint with
  | none => (.error .cdpEndpointRequired, w)
  | some _ =>
    if env.cdpDirectOk then
      let (b, w) := allocH w
      match env.remoteContext with
      | some c => (.ok ⟨some b, c, false, none⟩, w)
      | none =>
        let (c, w) := allocH w
        (.ok ⟨some b, c, true, none⟩, w)
    else (.error .attachFailed, w)

/-- Profile branch of `connect` (browser.py lines 236-248):
`launch_persistent_context` yields a context (which may already own a page,
hence `ctxFresh := false`) whose `.browser` is the launched browser. -/
def connectProfile (env : Env) (userDataDir : Option String) (w : World) :
    Except BrowserError BranchOut × World :=
  match userDataDir with
  | none => (.error .userDataDirRequired, w)
  | some _ =>
    if env.pwLaunchOk then
      let (c, w) := allocH w
      let w := { w with pwLaunches := w.pwLaunches + 1 }
      let (b, w) := allocH w
      (.ok ⟨some b, c, false, none⟩, w)
    else (.error .launchFailed, w)

/-- Fresh branch of `connect` (browser.py lines 250-272): launch an
ephemeral browser, then `new_context()` (so the context has no pages). -/
def connectFresh (env : Env) (w : World) :
    Except BrowserError BranchOut × World :=
  if env.pwLaunchOk then
    let (b, w) := allocH w
    let w := { w with pwLaunches := w.pwLaunches + 1 }
    let (c, w) := allocH w
    (.ok ⟨some b, c, true, none⟩, w)
  else (.error .launchFailed, w)

/-- Common tail of `connect` (browser.py lines 274-280): pick the first
existing page of the context or create one, build the `BrowserConnection`,
and insert it in the registry keyed by the effective session id. -/
def finishConnect (env : Env) (mode : BrowserMode) (eff : String)
    (out : BranchOut) (w : World) :
    Except BrowserError BrowserConnection × World :=
  let (page, w) :=
    match (if out.ctxFresh then none else env.ctxPage) with
    | some p => (p, w)
    | none => allocH w
  let conn : BrowserConnection :=
    ⟨out.browser, out.context, page, mode, eff, out.process⟩
  (.ok conn, { w with connections := dictSet eff conn w.connections })

/-- The `if/elif` backend dispatch of `connect` (browser.py lines 208-272). -/
def connectStep (env : Env) (a : ConnectArgs) (w : World) :
    Except BrowserError BranchOut × World :=
  match a.mode with
  | .persistent => connectPersistent env a.headless w
  | .cdp => connectCdp env a.cdp_endpoint w
  | .profile => connectProfile env a.user_data_dir w
  | .fresh => connectFresh env w

/-- Source: `BrowserManager.connect` (browser.py lines 190-280).
`pw = await self._get_playwright()` (line 201) starts Playwright; the
effective session id is `session_id or f'session-{id(self)}'` (line 202),
the manager's memory address being opaque and modelled as a fixed string.
A Python exception anywhere before line 278 escapes with the world as
mutated so far and, in particular, without touching `self.connections`. -/
def connect (env : Env) (a : ConnectArgs) (w : World) :
    Except BrowserError BrowserConnection × World :=
  match connectStep env a { w with playwrightStarted := true } with
  | (.error e, w) => (.error e, w)
  | (.ok out, w) => finishConnect env a.mode (a.session_id.getD "session-self") out w

/-- Source: `BrowserManager.get_connection` (browser.py lines 282-284). -/
def get_connection (sid : String) (w : World) : Option BrowserConnection :=
  dictGet sid w.connections

/-- Source: `BrowserManager.close_connection` (browser.py lines 286-292). -/
def close_connection (sid : String) (w : World) : World :=
  match dictGet sid w.connections with
  | none => w
  | some c =>
    { w with
      closedLog := w.closedLog ++ [c.closeEffect]
      connections := dictRemove sid w.connections }

/-- Module-level `get_or_create_connection` (browser.py lines 330-351):
default the id to `'default'`, return any existing registry entry
unchanged, otherwise pick `'fresh'` when headless and `'persistent'` when
headed and delegate to `connect`. -/
def get_or_create_connection (env : Env) (session_id : Option String)
    (headless : Bool) (w : World) :
    Except BrowserError BrowserConnection × World :=
  let eff := session_id.getD "default"
  match dictGet eff w.connections with
  | some c => (.ok c, w)
  | none =>
    let mode : BrowserMode := if headless then .fresh else .persistent
    connect env { mode := mode, headless := headless, session_id := some eff } w

/-!
## Interleaving model for in-process concurrent acquires

`get_or_create_connection` is an `async def` with no lock.  Its registry
check (`bm.get_connection(effective_session_id)`, lines 339-341) is
synchronous, but every creation path inside `bm.connect` suspends at an
`await` (Playwright start at line 97, `connect_over_cdp` at line 217/232,
`browser_type.launch` at line 271) BEFORE the registry insertion at line
279.  So between one task's check and its insertion, the event loop may run
the other task.  The model below has two cooperative tasks acquiring the
same session id; a task is two atomic segments:

* `pc = 0` — the registry check of lines 339-341: on a hit the task
  finishes with the cached connection, on a miss it proceeds to create;
* `pc = 1` — the whole of `connect` for this id: one browser launch, one
  fresh connection, and the dict insertion of line 279.

Treating creation as one atomic segment only REMOVES interleavings, so any
behaviour exhibited in this model is a behaviour of the source. -/

/-- Shared per-process state: the registry entry for the contended id, the
number of physical browser launches, and a handle allocator. -/
structure Shared where
  reg : Option Nat
  launches : Nat
  nextH : Nat
deriving DecidableEq, Repr

/-- One cooperative task: program counter (0 = about to check, 1 = about to
create, 2 = done) and its returned connection. -/
structure TaskSt where
  pc : Nat
  res : Option Nat
deriving DecidableEq, Repr

/-- One atomic segment of one task (see the section comment). -/
def taskStep (s : Shared) (t : TaskSt) : Shared × TaskSt :=
  match t.pc with
  | 0 =>
    match s.reg with
    | some h => (s, { pc := 2, res := some h })
    | none => (s, { t with pc := 1 })
  | 1 =>
    let h := s.nextH
    ({ reg := some h, launches := s.launches + 1, nextH := s.nextH + 1 },
     { pc := 2, res := some h })
  | _ => (s, t)

/-- Two tasks plus the shared state. -/
structure Sim where
  shared : Shared
  t1 : TaskSt
  t2 : TaskSt
deriving DecidableEq, Repr

/-- Run one scheduler decision: `true` steps task 1, `false` task 2. -/
def simStep (σ : Sim) (which : Bool) : Sim :=
  if which then
    let p := taskStep σ.shared σ.t1
    { σ with shared := p.1, t1 := p.2 }
  else
    let p := taskStep σ.shared σ.t2
    { σ with shared := p.1, t2 := p.2 }

/-- Run a schedule (a list of scheduler decisions). -/
def runSim (sched : List Bool) (σ : Sim) : Sim :=
  sched.foldl simStep σ

/-- Both tasks poised to acquire the same id; empty registry. -/
def simInit : Sim := ⟨⟨none, 0, 0⟩, ⟨0, none⟩, ⟨0, none⟩⟩

/-!
## Concrete sample inputs used by witnesses and counterexamples
-/

/-- A benign environment: Chrome installed, free port 9000, no cached port
verifies, CDP attach and Playwright launches succeed. -/
def env0 : Env where
  chromePath := some "/usr/bin/google-chrome"
  freePort := 9000
  verifyConnect := fun _ => false
  waitProbe := fun _ _ => false
  attachOk := fun _ => true
  cdpDirectOk := true
  procAlive := fun _ => true
  remoteContext := none
  ctxPage := none
  pwLaunchOk := true

/-- Like `env0` but with no Chrome executable anywhere. -/
def env1 : Env := { env0 with chromePath := none }

/-- Like `env0` but port 9222 answers the TCP liveness probe while every
CDP attach attempt is refused. -/
def env2 : Env :=
  { env0 with verifyConnect := fun p => p == 9222, attachOk := fun _ => false }

/-- A manager state with nothing connected and no port file. -/
def emptyWorld : World where
  portFile := none
  connections := []
  playwrightStarted := false
  persistentProcess := none
  persistentPort := none
  nextPid := 0
  nextHandle := 0
  launchedPids := []
  pwLaunches := 0
  closedLog := []

/-- A pre-existing persistent-mode connection registered under `default`. -/
def conn0 : BrowserConnection := ⟨some 1, 2, 3, .persistent, "default", some 7⟩

/-- Source: `emptyWorld` with `conn0` already in the registry. -/
def world1 : World := { emptyWorld with connections := [("default", conn0)] }

/-- Source: `emptyWorld` with a cached port file naming port 9222. -/
def world2 : World := { emptyWorld with portFile := some (some 9222) }

/-- Arguments of a fresh-mode headless `connect` for session `default`. -/
def argsFreshDefault : ConnectArgs :=
  { mode := .fresh, headless := true, session_id := some "default" }

/-- Arguments of a persistent-mode headed `connect` for session `default`. -/
def argsPersDefault : ConnectArgs :=
  { mode := .persistent, headless := false, session_id := some "default" }

/-- The connection built by a fresh-mode `connect` on `emptyWorld`. -/
def cFreshW : BrowserConnection := ⟨some 0, 1, 2, .fresh, "default", none⟩

/-- The connection built by a persistent-mode `connect` on `emptyWorld`
under `env0`. -/
def cPersW : BrowserConnection := ⟨some 0, 1, 2, .persistent, "default", some 0⟩

/-!
## Helper lemmas
-/

theorem dictGet_dictSet_self (k : String) (v : BrowserConnection)
    (m : List (String × BrowserConnection)) :
    dictGet k (dictSet k v m) = some v := by
  induction m with
  | nil => simp [dictGet, dictSet]
  | cons kv rest ih =>
    obtain ⟨k', v'⟩ := kv
    by_cases hk : k' = k
    · simp [dictSet, dictGet, hk]
    · simp [dictSet, dictGet, hk, ih]

theorem dictSet_keys_of_present (k : String) (v : BrowserConnection)
    (m : List (String × BrowserConnection)) (h : dictGet k m ≠ none) :
    (dictSet k v m).map Prod.fst = m.map Prod.fst := by
  induction m with
  | nil => simp [dictGet] at h
  | cons kv rest ih =>
    obtain ⟨k', v'⟩ := kv
    by_cases hk : k' = k
    · simp [dictSet, hk]
    · simp only [dictGet, hk, if_false] at h
      simp [dictSet, hk, ih h]

theorem check_existing_browser_frame (env : Env) (w : World) :
    (check_existing_browser env w).2.connections = w.connections ∧
    (check_existing_browser env w).2.closedLog = w.closedLog := by
  unfold check_existing_browser
  rcases w.portFile with _ | _ | p
  · exact ⟨rfl, rfl⟩
  · exact ⟨rfl, rfl⟩
  · dsimp only
    split <;> exact ⟨rfl, rfl⟩

theorem launchNewDetached_frame (env : Env) (w : World) :
    (launchNewDetached env w).2.connections = w.connections ∧
    (launchNewDetached env w).2.closedLog = w.closedLog := by
  unfold launchNewDetached
  rcases env.chromePath with _ | p
  · exact ⟨rfl, rfl⟩
  · exact ⟨rfl, rfl⟩

theorem launch_persistent_browser_frame (env : Env) (hl : Bool) (w : World) :
    (launch_persistent_browser env hl w).2.connections = w.connections ∧
    (launch_persistent_browser env hl w).2.closedLog = w.closedLog := by
  unfold launch_persistent_browser
  rcases hc : check_existing_browser env w with ⟨r, w1⟩
  have hframe := check_existing_browser_frame env w
  rw [hc] at hframe
  rcases r with _ | p
  · dsimp only
    rcases w1.persistentProcess with _ | pid
    · have := launchNewDetached_frame env w1
      exact ⟨this.1.trans hframe.1, this.2.trans hframe.2⟩
    · dsimp only
      split
      · exact hframe
      · have := launchNewDetached_frame env w1
        exact ⟨this.1.trans hframe.1, this.2.trans hframe.2⟩
  · exact hframe

theorem connectPersistent_frame (env : Env) (hl : Bool) (w : World) :
    (connectPersistent env hl w).2.connections = w.connections ∧
    (connectPersistent env hl w).2.closedLog = w.closedLog := by
  unfold connectPersistent
  rcases hl2 : launch_persistent_browser env hl w with ⟨r, w1⟩
  have hframe := launch_persistent_browser_frame env hl w
  rw [hl2] at hframe
  rcases r with e | port
  · exact hframe
  · dsimp only
    rcases attachTry env.attachOk 20 0 with _ | i
    · exact hframe
    · dsimp only [allocH]
      rcases env.remoteContext with _ | c <;> exact hframe

theorem connectCdp_frame (env : Env) (ep : Option String) (w : World) :
    (connectCdp env ep w).2.connections = w.connections ∧
    (connectCdp env ep w).2.closedLog = w.closedLog := by
  unfold connectCdp
  rcases ep with _ | s
  · exact ⟨rfl, rfl⟩
  · dsimp only
    split
    · dsimp only [allocH]
      rcases env.remoteContext with _ | c <;> exact ⟨rfl, rfl⟩
    · exact ⟨rfl, rfl⟩

theorem connectProfile_frame (env : Env) (ud : Option String) (w : World) :
    (connectProfile env ud w).2.connections = w.connections ∧
    (connectProfile env ud w).2.closedLog = w.closedLog := by
  unfold connectProfile
  rcases ud with _ | s
  · exact ⟨rfl, rfl⟩
  · dsimp only
    split <;> exact ⟨rfl, rfl⟩

theorem connectFresh_frame (env : Env) (w : World) :
    (connectFresh env w).2.connections = w.connections ∧
    (connectFresh env w).2.closedLog = w.closedLog := by
  unfold connectFresh
  split <;> exact ⟨rfl, rfl⟩

theorem connectStep_frame (env : Env) (a : ConnectArgs) (w : World) :
    (connectStep env a w).2.connections = w.connections ∧
    (connectStep env a w).2.closedLog = w.closedLog := by
  unfold connectStep
  cases a.mode
  · exact connectFresh_frame env w
  · exact connectCdp_frame env a.cdp_endpoint w
  · exact connectProfile_frame env a.user_data_dir w
  · exact connectPersistent_frame env a.headless w

/-- Source: `finishConnect` always succeeds; the produced connection carries the
given mode, id, browser and process, and is inserted under the id. -/
theorem finishConnect_spec (env : Env) (mode : BrowserMode) (eff : String)
    (out : BranchOut) (w : World) :
    ∃ c : BrowserConnection,
      (finishConnect env mode eff out w).1 = .ok c ∧
      (finishConnect env mode eff out w).2.connections
        = dictSet eff c w.connections ∧
      (finishConnect env mode eff out w).2.closedLog = w.closedLog ∧
      c.mode = mode ∧ c.session_id = eff ∧ c.browser = out.browser ∧
      c.context = out.context ∧ c.process = out.process := by
  unfold finishConnect
  rcases (if out.ctxFresh then none else env.ctxPage) with _ | p
  · exact ⟨_, rfl, rfl, rfl, rfl, rfl, rfl, rfl, rfl⟩
  · exact ⟨_, rfl, rfl, rfl, rfl, rfl, rfl, rfl, rfl⟩

/-- Field-level description of a successful `connect`. -/
theorem connect_ok_spec (env : Env) (a : ConnectArgs) (w : World)
    (c : BrowserConnection) (w' : World)
    (h : connect env a w = (.ok c, w')) :
    c.mode = a.mode ∧ c.session_id = a.session_id.getD "session-self" ∧
    w'.connections = dictSet (a.session_id.getD "session-self") c w.connections ∧
    w'.closedLog = w.closedLog := by
  unfold connect at h
  rcases hs : connectStep env a { w with playwrightStarted := true } with ⟨r, w2⟩
  have hframe := connectStep_frame env a { w with playwrightStarted := true }
  rw [hs] at hframe
  rw [hs] at h
  rcases r with e | out
  · exact absurd (congrArg Prod.fst h) (by simp)
  · dsimp only at h
    obtain ⟨c0, h1, h2, h3, h4, h5, _, _, _⟩ :=
      finishConnect_spec env a.mode (a.session_id.getD "session-self") out w2
    have hc : c0 = c := by
      have := congrArg Prod.fst h
      rw [h1] at this
      exact (Except.ok.injEq _ _ |>.mp this)
    have hw : (finishConnect env a.mode (a.session_id.getD "session-self") out w2).2 = w' :=
      congrArg Prod.snd h
    subst hc
    rw [hw] at h2 h3
    exact ⟨h4, h5, by rw [h2, hframe.1], by rw [h3, hframe.2]⟩

/-- A `connect` that raises leaves the registry and the teardown log as
they were. -/
theorem connect_error_frame (env : Env) (a : ConnectArgs) (w : World)
    (e : BrowserError) (w' : World)
    (h : connect env a w = (.error e, w')) :
    w'.connections = w.connections ∧ w'.closedLog = w.closedLog := by
  unfold connect at h
  rcases hs : connectStep env a { w with playwrightStarted := true } with ⟨r, w2⟩
  have hframe := connectStep_frame env a { w with playwrightStarted := true }
  rw [hs] at hframe
  rw [hs] at h
  rcases r with e' | out
  · dsimp only at h
    have hw : w2 = w' := congrArg Prod.snd h
    subst hw
    exact hframe
  · dsimp only at h
    obtain ⟨c0, h1, _, _, _, _, _, _, _⟩ :=
      finishConnect_spec env a.mode (a.session_id.getD "session-self") out w2
    have := congrArg Prod.fst h
    rw [h1] at this
    exact absurd this (by simp)

/-- If every CDP attach attempt fails, the retry loop exhausts. -/
theorem attachTry_all_false (ok : Nat → Bool) (h : ∀ i, ok i = false) :
    ∀ fuel a, attachTry ok fuel a = none := by
  intro fuel
  induction fuel with
  | zero => intro a; rfl
  | succ n ih => intro a; simp [attachTry, h, ih]

/-- If no probe ever answers, the readiness poll makes every allowed
attempt and reports exhaustion. -/
theorem waitReady_all_false (probe : Nat → Bool) (h : ∀ i, probe i = false) :
    ∀ fuel made, waitReady probe fuel made = (false, made + fuel) := by
  intro fuel
  induction fuel with
  | zero => intro made; simp [waitReady]
  | succ n ih =>
    intro made
    simp only [waitReady, h, ih]
    simp only [Bool.false_eq_true, if_false, Prod.mk.injEq, true_and]
    omega

/-!
## Claim theorems
-/

/-- C1: `get_or_create_connection` is idempotent per session id: when the
registry already holds a connection for the (defaulted) id, the call
returns that very connection and the whole world — registry, port file,
launch log — is unchanged; in particular no connection is created and no
navigation side effect occurs. -/
theorem acquire_idempotent_per_id (env : Env) (sid : Option String)
    (headless : Bool) (w : World) (c : BrowserConnection)
    (h : dictGet (sid.getD "default") w.connections = some c) :
    get_or_create_connection env sid headless w = (.ok c, w) := by
  simp only [get_or_create_connection, h]

theorem acquire_idempotent_per_id_witness :
    get_or_create_connection env0 (some "default") true world1 = (.ok conn0, world1) :=
  acquire_idempotent_per_id env0 (some "default") true world1 conn0 rfl

/-- C9: when a session for the id already exists, the `headless` argument
of `get_or_create_connection` is entirely ignored: the existing connection
(whatever its mode or original headless setting) is returned unchanged, so
a repeat acquire's arguments have no effect on the result. -/
theorem repeat_acquire_ignores_headless (env : Env) (sid : Option String)
    (w : World) (c : BrowserConnection) (h1 h2 : Bool)
    (h : dictGet (sid.getD "default") w.connections = some c) :
    get_or_create_connection env sid h1 w = (.ok c, w) ∧
    get_or_create_connection env sid h1 w = get_or_create_connection env sid h2 w := by
  constructor <;> simp only [get_or_create_connection, h]

theorem repeat_acquire_ignores_headless_witness :
    (get_or_create_connection env0 (some "default") true world1 = (.ok conn0, world1) ∧
     get_or_create_connection env0 (some "default") true world1
       = get_or_create_connection env0 (some "default") false world1) :=
  repeat_acquire_ignores_headless env0 (some "default") world1 conn0 true false rfl

/-- C2: backend-selection tie-break with no session cached and no pinned
mode: `headless = true` delegates to `connect` in `fresh` mode and
`headless = false` in `persistent` mode — for every world, hence regardless
of any cached port-file contents — and any connection so produced carries
that mode. -/
theorem backend_selection_tiebreak (env : Env) (sid : Option String) (w : World)
    (habs : dictGet (sid.getD "default") w.connections = none) :
    (get_or_create_connection env sid true w
      = connect env { mode := .fresh, headless := true,
                      session_id := some (sid.getD "default") } w) ∧
    (get_or_create_connection env sid false w
      = connect env { mode := .persistent, headless := false,
                      session_id := some (sid.getD "default") } w) ∧
    (∀ c w', get_or_create_connection env sid true w = (.ok c, w') →
      c.mode = .fresh) ∧
    (∀ c w', get_or_create_connection env sid false w = (.ok c, w') →
      c.mode = .persistent) := by
  have ht : get_or_create_connection env sid true w
      = connect env { mode := .fresh, headless := true,
                      session_id := some (sid.getD "default") } w := by
    simp only [get_or_create_connection, habs]
    rfl
  have hh : get_or_create_connection env sid false w
      = connect env { mode := .persistent, headless := false,
                      session_id := some (sid.getD "default") } w := by
    simp only [get_or_create_connection, habs]
    rfl
  refine ⟨ht, hh, ?_, ?_⟩
  · intro c w' hc
    rw [ht] at hc
    exact (connect_ok_spec env _ w c w' hc).1
  · intro c w' hc
    rw [hh] at hc
    exact (connect_ok_spec env _ w c w' hc).1

theorem backend_selection_tiebreak_witness :
    cFreshW.mode = BrowserMode.fresh ∧ cPersW.mode = BrowserMode.persistent :=
  ⟨(backend_selection_tiebreak env0 none emptyWorld rfl).2.2.1 cFreshW _ rfl,
   (backend_selection_tiebreak env0 none emptyWorld rfl).2.2.2 cPersW _ rfl⟩

/-- C7: the readiness wait of `_launch_persistent_browser` is a bounded
poll: on a port on which no probe ever answers it performs exactly its
configured 20 connect attempts and then reports failure as a value (the
function is total, so it neither raises nor blocks indefinitely), leaving
the caller to decide what to do. -/
theorem wait_until_ready_bounded (probe : Nat → Bool)
    (h : ∀ i, probe i = false) :
    waitReady probe 20 0 = (false, 20) := by
  simpa using waitReady_all_false probe h 20 0

theorem wait_until_ready_bounded_witness :
    waitReady (fun _ => false) 20 0 = (false, 20) :=
  wait_until_ready_bounded (fun _ => false) (fun _ => rfl)

/-- C4: every load of the cached port is verified by an actual connection
attempt before being trusted: `_check_existing_browser` returns a port only
when the file parses to it AND the short-timeout TCP connect succeeds (the
world then being untouched); in every other case — file absent, unparsable
content, refused or timed-out connect — the result is `none` and the port
file ends up deleted (a no-op when it was already absent). -/
theorem port_load_always_verified (env : Env) (w : World) :
    (∀ p, (check_existing_browser env w).1 = some p →
      env.verifyConnect p = true ∧ w.portFile = some (some p) ∧
      check_existing_browser env w = (some p, w)) ∧
    ((check_existing_browser env w).1 = none →
      (check_existing_browser env w).2.portFile = none ∧
      (check_existing_browser env w).2.connections = w.connections) := by
  rcases hf : w.portFile with _ | _ | p
  · refine ⟨fun q hq => ?_, fun _ => ?_⟩
    · simp [check_existing_browser, hf] at hq
    · simp [check_existing_browser, hf]
  · refine ⟨fun q hq => ?_, fun _ => ?_⟩
    · simp [check_existing_browser, hf] at hq
    · simp [check_existing_browser, hf]
  · by_cases hv : env.verifyConnect p
    · refine ⟨fun q hq => ?_, fun hq => ?_⟩
      · have hpq : p = q := by
          simpa [check_existing_browser, hf, hv] using hq
        subst hpq
        exact ⟨hv, rfl, by simp [check_existing_browser, hf, hv]⟩
      · simp [check_existing_browser, hf, hv] at hq
    · refine ⟨fun q hq => ?_, fun _ => ?_⟩
      · simp [check_existing_browser, hf, hv] at hq
      · simp [check_existing_browser, hf, hv]

theorem port_load_always_verified_witness :
    (check_existing_browser env0 world2).2.portFile = none ∧
    (check_existing_browser env0 world2).2.connections = world2.connections :=
  (port_load_always_verified env0 world2).2 rfl

/-- C3: mode-specific teardown for sessions produced by `connect`: a
fresh-mode connection always holds a browser handle (the one launched for
it) and closing it closes that handle, terminating the process it owns;
closing a persistent-mode connection performs no teardown at all, so the
backing detached browser process is never terminated and stays usable. -/
theorem mode_specific_teardown (env : Env) (a : ConnectArgs) (w : World)
    (c : BrowserConnection) (w' : World)
    (h : connect env a w = (.ok c, w')) :
    (a.mode = .fresh →
      c.browser = some w.nextHandle ∧
      c.closeEffect = .closedBrowser w.nextHandle) ∧
    (a.mode = .persistent → c.closeEffect = .noEffect) := by
  have hmode := (connect_ok_spec env a w c w' h).1
  constructor
  · intro hf
    by_cases hl : env.pwLaunchOk = true
    · simp only [connect, connectStep, hf, connectFresh, hl, if_true, allocH] at h
      obtain ⟨c0, h1, _, _, _, _, hb, _, _⟩ :=
        finishConnect_spec env a.mode (a.session_id.getD "session-self")
          ⟨some w.nextHandle, w.nextHandle + 1, true, none⟩
          { w with playwrightStarted := true, nextHandle := w.nextHandle + 1 + 1,
                   pwLaunches := w.pwLaunches + 1 }
      rw [hf] at h1
      have hc : c0 = c := by
        have := congrArg Prod.fst h
        rw [h1] at this
        exact Except.ok.inj this
      subst hc
      refine ⟨hb, ?_⟩
      have hcm : c0.mode = BrowserMode.fresh := hmode.trans hf
      unfold BrowserConnection.closeEffect
      rw [hcm, hb]
    · simp only [connect, connectStep, hf, connectFresh, hl, Bool.false_eq_true,
        if_false] at h
      exact absurd (congrArg Prod.fst h) (by simp)
  · intro hp
    have hcm : c.mode = BrowserMode.persistent := hmode.trans hp
    unfold BrowserConnection.closeEffect
    rw [hcm]

theorem mode_specific_teardown_witness :
    (cFreshW.browser = some 0 ∧ cFreshW.closeEffect = CloseEffect.closedBrowser 0) ∧
    cPersW.closeEffect = CloseEffect.noEffect :=
  ⟨(mode_specific_teardown env0 argsFreshDefault emptyWorld cFreshW _ rfl).1 rfl,
   (mode_specific_teardown env0 argsPersDefault emptyWorld cPersW _ rfl).2 rfl⟩

/-- C8: connection failures are not cached: whenever `connect` raises —
backend error, attach failure, launch error — no entry is inserted in the
session registry (it is left exactly as it was, for every id), so the next
acquire for that id retries from scratch. -/
theorem failed_connect_not_cached (env : Env) (a : ConnectArgs) (w : World)
    (e : BrowserError) (w' : World)
    (h : connect env a w = (.error e, w')) :
    w'.connections = w.connections ∧
    ∀ sid, dictGet sid w'.connections = dictGet sid w.connections := by
  have hframe := connect_error_frame env a w e w' h
  exact ⟨hframe.1, fun sid => by rw [hframe.1]⟩

theorem failed_connect_not_cached_witness :
    (connect env1 argsPersDefault emptyWorld).2.connections
      = emptyWorld.connections :=
  (failed_connect_not_cached env1 argsPersDefault emptyWorld
    .chromeNotFound _ rfl).1

/-- C10: `connect` called directly with a session id already present in the
registry unconditionally overwrites that id's entry with the newly created
connection, never invokes the previous connection's teardown (the teardown
log is untouched), and preserves the one-entry-per-id shape: the key list
of the registry is exactly what it was. -/
theorem direct_connect_overwrites (env : Env) (a : ConnectArgs) (w : World)
    (sid : String) (old c : BrowserConnection) (w' : World)
    (hsid : a.session_id = some sid)
    (hold : dictGet sid w.connections = some old)
    (h : connect env a w = (.ok c, w')) :
    dictGet sid w'.connections = some c ∧
    w'.connections.map Prod.fst = w.connections.map Prod.fst ∧
    w'.closedLog = w.closedLog := by
  obtain ⟨_, _, hconn, hlog⟩ := connect_ok_spec env a w c w' h
  rw [hsid, Option.getD_some] at hconn
  refine ⟨?_, ?_, hlog⟩
  · rw [hconn]
    exact dictGet_dictSet_self sid c w.connections
  · rw [hconn]
    exact dictSet_keys_of_present sid c w.connections (by rw [hold]; simp)

theorem direct_connect_overwrites_witness :
    dictGet "default" (connect env0 argsFreshDefault world1).2.connections
      = some cFreshW ∧
    (connect env0 argsFreshDefault world1).2.connections.map Prod.fst
      = world1.connections.map Prod.fst ∧
    (connect env0 argsFreshDefault world1).2.closedLog = world1.closedLog :=
  direct_connect_overwrites env0 argsFreshDefault world1 "default"
    conn0 cFreshW _ rfl rfl rfl

/-- C6 counterexample: a cached port (9222) that answers the TCP liveness
probe but whose CDP attach is refused on all 20 attempts.  Contrary to the
claim, `connect` surfaces the error to the caller, the port file is NOT
deleted, and no fallback fresh browser is launched (no process spawned, no
Playwright launch). -/
theorem attach_failure_counterexample :
    (connect env2 argsPersDefault world2).1 = .error .attachFailed ∧
    (connect env2 argsPersDefault world2).2.portFile = some (some 9222) ∧
    (connect env2 argsPersDefault world2).2.launchedPids = [] ∧
    (connect env2 argsPersDefault world2).2.pwLaunches = 0 :=
  ⟨rfl, rfl, rfl, rfl⟩

/-- C6 (amended): staleness is handled one step earlier than the claim
says.  A cached port that fails the TCP liveness check IS treated as stale:
`_launch_persistent_browser` deletes the file (writing a new port) and
launches a fresh detached browser.  But a refusal during the CDP attach
itself is NOT: after its 20 attempts, `connect` raises to the caller,
leaving the port file in place and launching nothing. -/
theorem attach_failure_amended (env : Env) (w : World) (p : Nat) (hl : Bool)
    (hfile : w.portFile = some (some p)) :
    (env.verifyConnect p = false → w.persistentProcess = none →
      ∀ path, env.chromePath = some path →
        (launch_persistent_browser env hl w).1 = .ok env.freePort ∧
        (launch_persistent_browser env hl w).2.portFile
          = some (some env.freePort) ∧
        (launch_persistent_browser env hl w).2.launchedPids
          = w.launchedPids ++ [w.nextPid]) ∧
    (env.verifyConnect p = true → (∀ i, env.attachOk i = false) →
      ∀ a : ConnectArgs, a.mode = .persistent →
        (connect env a w).1 = .error .attachFailed ∧
        (connect env a w).2.portFile = some (some p) ∧
        (connect env a w).2.launchedPids = w.launchedPids) := by
  constructor
  · intro hv hproc path hcp
    simp [launch_persistent_browser, check_existing_browser, hfile, hv,
      hproc, launchNewDetached, hcp]
  · intro hv hfail a hmode
    have hat := attachTry_all_false env.attachOk hfail 20 0
    simp [connect, connectStep, hmode, connectPersistent,
      launch_persistent_browser, check_existing_browser, hfile, hv, hat]

theorem attach_failure_amended_witness :
    (((launch_persistent_browser env0 false world2).1 = .ok 9000 ∧
      (launch_persistent_browser env0 false world2).2.portFile
        = some (some 9000) ∧
      (launch_persistent_browser env0 false world2).2.launchedPids = [0]) ∧
     ((connect env2 argsPersDefault world2).1 = .error .attachFailed ∧
      (connect env2 argsPersDefault world2).2.portFile = some (some 9222) ∧
      (connect env2 argsPersDefault world2).2.launchedPids = [])) :=
  ⟨(attach_failure_amended env0 world2 9222 false rfl).1 rfl rfl
      "/usr/bin/google-chrome" rfl,
   (attach_failure_amended env2 world2 9222 false rfl).2
      rfl (fun _ => rfl) argsPersDefault rfl⟩

/-- C5 counterexample: the schedule in which both tasks pass the registry
check before either registers (possible, since every creation path of
`connect` suspends at an `await` before the insertion at line 279) makes
two physical browser launches and hands the two callers different
sessions — refuting the claim that concurrent same-id acquires perform
exactly one launch and share one session. -/
theorem concurrent_acquire_counterexample :
    (runSim [true, false, true, false] simInit).shared.launches = 2 ∧
    (runSim [true, false, true, false] simInit).t1.res
      ≠ (runSim [true, false, true, false] simInit).t2.res := by
  decide

/-- C5 (amended): `get_or_create_connection` has no lock, so the guarantee
is only sequential: when the second acquire starts after the first has
registered, there is exactly one launch and both callers share the session;
but the interleaving in which both registry checks precede either
insertion performs two launches (the second insertion overwriting the
first). -/
theorem concurrent_acquire_amended :
    ((runSim [true, true, false, false] simInit).shared.launches = 1 ∧
     (runSim [true, true, false, false] simInit).t1.res
       = (runSim [true, true, false, false] simInit).t2.res ∧
     (runSim [true, true, false, false] simInit).t1.res = some 0) ∧
    (runSim [true, false, true, false] simInit).shared.launches = 2 := by
  decide

end WebscraperBrowser
